import Mathlib

/-!
Shallow embedding of `gl-repo-reporter` (two Python scripts,
`coding_standards_report.py` and `detailed_issues_report.py`).

The repository queries the Codacy REST API and writes CSV reports.  The
embedding models:
  * `CodacyAPI._make_request`  (retry / rate-limit loop, identical in both
    scripts up to the GET/POST dispatch which does not affect the retry
    logic) as `makeRequestLoop` / `makeRequest`;
  * `CodacyAPI.get_coding_standards` (draft filter);
  * `CodacyAPI.search_repository_issues` (quick mode and the detailed
    cursor-pagination loop);
  * `CodacyAPI.get_repository_analysis` (coverage derivation, 404 handling);
  * the three report generators (`generate_report` of
    coding_standards_report.py, `generate_quick_report` and
    `generate_detailed_report` of detailed_issues_report.py) as functions
    from an environment (the responses of the remote API) to the list of
    CSV data rows they write (the constant header row is left out).

Python dict lookups with defaults (`d.get(k, v)`) are modelled with
`Option` fields and `Option.getD` where a claim can observe the default,
and with plain fields otherwise.  Machine floats only appear in the
coverage percentage; it is modelled over `ℚ` (every value exercised by
the claims is exactly representable).  Network effects are modelled by
passing the sequence of per-request outcomes in explicitly.
-/

deriving instance DecidableEq for Except

namespace GlReporter

/-! ## HTTP client wrapper: `CodacyAPI._make_request` -/

/-- Outcome of one HTTP request attempt, as observed by the `try` body of
`_make_request`: an HTTP 429 response (with its optional numeric
`Retry-After` header), a `requests.exceptions.RequestException` carrying a
message (this includes the non-2xx statuses surfaced by
`raise_for_status`), or a successful response with parsed JSON body. -/
inductive AttemptResult (α : Type) where
  | rateLimited (retryAfter : Option Nat)
  | failure (msg : String)
  | success (body : α)
deriving DecidableEq

/-- The two exceptions `_make_request` can raise:
`Exception(f"API request failed after {max_retries} retries: {str(e)}")`
(carrying the last underlying error text and the retry count) and the
bare `Exception("Maximum retries exceeded")` reached when the `while`
loop exits without returning. -/
inductive ReqError where
  | apiRequestFailed (lastError : String) (maxRetries : Nat)
  | maxRetriesExceeded
deriving DecidableEq

/-- The exact message string of each raised exception. -/
def ReqError.message : ReqError → String
  | .apiRequestFailed lastError maxRetries =>
      s!"API request failed after {maxRetries} retries: {lastError}"
  | .maxRetriesExceeded => "Maximum retries exceeded"

/-- Whether the raised error carries the last underlying error and the
retry count (true exactly for the `apiRequestFailed` exception). -/
def ReqError.carriesRetryDetails : ReqError → Bool
  | .apiRequestFailed _ _ => true
  | .maxRetriesExceeded => false

/-- What a call to `_make_request` does: the chronological list of
`time.sleep` durations (in seconds) it performs, and either the parsed
JSON of the successful response or the raised error. -/
structure ReqTrace (α : Type) where
  sleeps : List Nat
  result : Except ReqError α
deriving DecidableEq

/-- The `while retries < max_retries` loop of `_make_request`.
`attempts i` is the outcome of the `i`-th HTTP request issued (every
iteration issues exactly one request, and `retries` equals the number of
requests already issued, so request `i` is made with `retries = i`).
`fuel` is the exact number of remaining iterations the guard allows,
`max_retries - retries`; each non-returning iteration increments
`retries` by one, so `fuel` decreases by one in lockstep and `fuel = 0`
is precisely the loop exiting with `retries = max_retries`, which
raises `Exception("Maximum retries exceeded")`.

* 429 branch: `retry_after = int(response.headers.get('Retry-After', 60))`,
  `time.sleep(retry_after)`, `retries += 1`, `continue`.
* exception branch: `retries += 1`; if `retries == max_retries` raise the
  detailed exception, else `time.sleep(2 ** retries)`.
* success: return the parsed body, no further sleeps. -/
def makeRequestLoop (attempts : Nat → AttemptResult α) (maxRetries : Nat) :
    Nat → Nat → ReqTrace α
  | 0, _ => { sleeps := [], result := .error .maxRetriesExceeded }
  | fuel + 1, retries =>
    match attempts retries with
    | .rateLimited retryAfter =>
      let retry_after := retryAfter.getD 60
      let rest := makeRequestLoop attempts maxRetries fuel (retries + 1)
      { sleeps := retry_after :: rest.sleeps, result := rest.result }
    | .success body => { sleeps := [], result := .ok body }
    | .failure msg =>
      if retries + 1 = maxRetries then
        { sleeps := [], result := .error (.apiRequestFailed msg maxRetries) }
      else
        let rest := makeRequestLoop attempts maxRetries fuel (retries + 1)
        { sleeps := 2 ^ (retries + 1) :: rest.sleeps, result := rest.result }

/-- `_make_request(url, ..., max_retries)`: run the loop from
`retries = 0` (so with `max_retries` iterations of fuel). -/
def makeRequest (attempts : Nat → AttemptResult α) (maxRetries : Nat) : ReqTrace α :=
  makeRequestLoop attempts maxRetries maxRetries 0

/-! ## Shared domain data -/

/-- One element of the `"data"` list of the coding-standards response.
`isDraft` / `isDefault` model `s.get("isDraft", False)` /
`s.get("isDefault", False)` (an absent key is `false`), and the two
counts model `s.get('meta', {}).get('enabledToolsCount', 0)` and
`...('enabledPatternsCount', 0)` (absent keys are `0`). -/
structure CodingStandard where
  id : String
  name : String
  isDraft : Bool
  isDefault : Bool
  enabledToolsCount : Nat
  enabledPatternsCount : Nat
deriving DecidableEq

/-- One element of the `"data"` list of the repositories-for-standard
response.  `name` is `none` when the `"name"` key is absent; the reports
read it as `repo.get("name", "")` and then test Python truthiness, so an
absent key and an empty string behave alike. -/
structure Repo where
  name : Option String
deriving DecidableEq

/-- A CSV cell as written by `csv.writer`: the Python code writes
strings, ints, bools and (for coverage/duplication) numbers modelled
over `ℚ`. -/
inductive Cell where
  | str (s : String)
  | nat (n : Nat)
  | bool (b : Bool)
  | rat (q : ℚ)
deriving DecidableEq

/-- `get_coding_standards` (identical in both scripts): takes the parsed
`"data"` list of the response and keeps the standards with
`not s.get("isDraft", False)`. -/
def get_coding_standards (standardsData : List CodingStandard) : List CodingStandard :=
  standardsData.filter (fun s => !s.isDraft)

/-! ## `search_repository_issues` (detailed_issues_report.py) -/

/-- The query parameters of one POST to `.../issues/search`: the
`params` dict holds `"limit"` and, when the loop variable `cursor` is
truthy, `"cursor"`. -/
structure IssuesRequest where
  limit : Nat
  cursor : Option String
deriving DecidableEq

/-- The `"pagination"` object of an issues-search response.  `total`
models `pagination.get("total", 0)` and `cursor` models
`pagination.get("cursor")` (`none` when absent).  `counts` stands for a
`"counts"` key such a JSON object may carry; the code never reads it
(it reads `counts` from the top level of the response body), and the
field exists so that the two possible read locations are
distinguishable. -/
structure Pagination where
  total : Nat
  cursor : Option String
  counts : List (String × Nat)
deriving DecidableEq

/-- The parsed JSON body of one issues-search response: the `"data"`
list of issues, the top-level `"counts"` mapping (severity → count, as
association list) and the `"pagination"` object. -/
structure SearchResponse (α : Type) where
  data : List α
  counts : List (String × Nat)
  pagination : Pagination
deriving DecidableEq

/-- Python truthiness of the `cursor` value: `None` and `""` are falsy
(`if not cursor: break` / `if cursor: params["cursor"] = cursor`). -/
def cursorTruthy : Option String → Bool
  | none => false
  | some s => !(s == "")

/-- `counts.get(key, 0)` on the severity-counts mapping. -/
def countsGet (counts : List (String × Nat)) (key : String) : Nat :=
  match counts.find? (fun p => p.1 == key) with
  | some p => p.2
  | none => 0

/-- `{"total": data.get("pagination", {}).get("total", 0), "counts":
data.get("counts", {})}` — the value quick mode builds from the one
response.  Note `counts` is read from the TOP LEVEL of the response
body, not from the `"pagination"` object. -/
structure QuickResult where
  total : Nat
  counts : List (String × Nat)
deriving DecidableEq

def quickResultOf (resp : SearchResponse α) : QuickResult :=
  { total := resp.pagination.total, counts := resp.counts }

/-- Quick mode of `search_repository_issues`: one POST with
`params = {"limit": 1}` (no cursor), returning the total/counts pair.
`server` maps the request parameters to the parsed response body; the
returned list is the requests issued (exactly one). -/
def search_repository_issues_quick (server : IssuesRequest → SearchResponse α) :
    List IssuesRequest × QuickResult :=
  let req : IssuesRequest := { limit := 1, cursor := none }
  ([req], quickResultOf (server req))

/-- The detailed-mode `while True` pagination loop of
`search_repository_issues`.  Each iteration builds
`params = {"limit": 100}` plus `"cursor"` when the loop's `cursor`
variable is truthy, issues the POST, appends `data.get("data", [])` to
`all_issues`, reads `pagination.get("cursor")` and breaks when it is
falsy.  The loop has no bound in the source; `fuel` bounds the number of
iterations in the embedding and the `Bool` component records whether the
loop really broke on a falsy cursor (`true`) rather than running out of
fuel (`false`).  Results: (requests issued, `all_issues`, break flag). -/
def searchIssuesLoop (server : IssuesRequest → SearchResponse α) :
    Nat → Option String → List IssuesRequest × List α × Bool
  | 0, _ => ([], [], false)
  | fuel + 1, cursor =>
    let req : IssuesRequest :=
      { limit := 100, cursor := if cursorTruthy cursor then cursor else none }
    let resp := server req
    let issues := resp.data
    let next := resp.pagination.cursor
    if cursorTruthy next then
      let rest := searchIssuesLoop server fuel next
      (req :: rest.1, issues ++ rest.2.1, rest.2.2)
    else
      ([req], issues, true)

/-- Detailed mode of `search_repository_issues`: run the pagination loop
with `cursor = None`. -/
def search_repository_issues_detailed (server : IssuesRequest → SearchResponse α)
    (fuel : Nat) : List IssuesRequest × List α × Bool :=
  searchIssuesLoop server fuel none

/-! ## `get_repository_analysis` (coding_standards_report.py) -/

/-- `data.get("coverage", {})` with its three numeric keys, each
defaulting to `0` when absent (`coverage_data.get("numberTotalFiles", 0)`
etc.); an absent `"coverage"` object behaves as all three being `0`. -/
structure CoverageData where
  numberTotalFiles : Nat
  filesUncovered : Nat
  filesWithLowCoverage : Nat
deriving DecidableEq

/-- Line 77 of coding_standards_report.py:
`coverage_percentage = 0 if total_files == 0 else
((total_files - uncovered_files - low_coverage_files) / total_files) * 100`.
Python `/` on ints is exact float division; it is modelled over `ℚ`. -/
def coverage_percentage (cov : CoverageData) : ℚ :=
  if cov.numberTotalFiles = 0 then 0
  else (((cov.numberTotalFiles : ℚ) - (cov.filesUncovered : ℚ)
          - (cov.filesWithLowCoverage : ℚ)) / (cov.numberTotalFiles : ℚ)) * 100

/-- `round(x, 2)`: round to two decimal places (the claims only exercise
values where the rounding mode at ties cannot matter). -/
def roundTo2 (q : ℚ) : ℚ := ((round (q * 100) : ℤ) : ℚ) / 100

/-- The parsed `"data"` object of the analysis endpoint response, with
the keys `get_repository_analysis` reads.  `gradeLetter` is `none` when
absent (`data.get('gradeLetter', 'N/A')`); the remaining `.get(_, 0)`
defaults are folded into the plain fields. -/
structure AnalysisData where
  gradeLetter : Option String
  grade : Nat
  issuesCount : Nat
  coverage : CoverageData
  complexFilesCount : Nat
  duplicationPercentage : ℚ
  loc : Nat
deriving DecidableEq

/-- The `"issues"` sub-dict of the metrics built by
`get_repository_analysis`: Critical/Medium/Minor are hardcoded `0`
("not broken down by severity in the response") and Total is
`data.get("issuesCount", 0)`. -/
structure IssuesBreakdown where
  critical : Nat
  medium : Nat
  minor : Nat
  total : Nat
deriving DecidableEq

/-- The `metrics` dict built on lines 80–92 of
coding_standards_report.py. -/
structure Metrics where
  grade : String
  issues : IssuesBreakdown
  coverage : ℚ
  complexity : Nat
  duplication : ℚ
  loc : Nat
deriving DecidableEq

def metricsOf (data : AnalysisData) : Metrics :=
  let letter := data.gradeLetter.getD "N/A"
  let gradeNum := data.grade
  { grade := s!"{letter} ({gradeNum}%)"
  , issues := { critical := 0, medium := 0, minor := 0, total := data.issuesCount }
  , coverage := roundTo2 (coverage_percentage data.coverage)
  , complexity := data.complexFilesCount
  , duplication := data.duplicationPercentage
  , loc := data.loc }

/-- Outcome of the analysis request as seen inside the `try` of
`get_repository_analysis`: either the parsed response (its `"data"`
object), or an exception whose text is `msg` (for an HTTP 404,
`raise_for_status` raises an error whose text contains `"404"`). -/
inductive AnalysisResponse where
  | ok (data : AnalysisData)
  | err (msg : String)
deriving DecidableEq

/-- `sub in s` on strings (Python substring test), via character lists. -/
def containsSublist (sub : List Char) : List Char → Bool
  | [] => sub.isEmpty
  | c :: rest => sub.isPrefixOf (c :: rest) || containsSublist sub rest

def strContains (s sub : String) : Bool := containsSublist sub.toList s.toList

/-- `get_repository_analysis` (lines 65–98): on success return
`(metrics, None)`; on any exception return `({}, "Repository not
analyzed")` when the exception text contains `"404"`, else
`({}, str(e))`.  The empty metrics dict is modelled as `none`. -/
def get_repository_analysis (resp : AnalysisResponse) : Option Metrics × Option String :=
  match resp with
  | .ok data => (some (metricsOf data), none)
  | .err msg =>
    if strContains msg "404" then (none, some "Repository not analyzed")
    else (none, some msg)

/-! ## Report generators

Each generator is modelled as a function from an environment — the
responses the remote API would give to the calls the generator makes —
to the list of CSV data rows written (the constant header row, the
progress printing and the `if not standards: return` early exit, which
writes no rows either way, are not part of the row list). -/

/-- Environment of `generate_report` (coding_standards_report.py):
the parsed `"data"` of the coding-standards response, the repositories
bound to a standard id, and the analysis outcome per repository name. -/
structure CSREnv where
  standardsData : List CodingStandard
  reposFor : String → List Repo
  analysisFor : String → AnalysisResponse

/-- The placeholder row written when a standard has no repositories
(lines 134–142): name, isDefault, tools, patterns, `"No repositories"`,
`"N/A"`, five zeros, empty error. -/
def csrNoReposRow (standard : CodingStandard) : List Cell :=
  [.str standard.name, .bool standard.isDefault,
   .nat standard.enabledToolsCount, .nat standard.enabledPatternsCount,
   .str "No repositories", .str "N/A",
   .nat 0, .nat 0, .nat 0, .nat 0, .nat 0, .str ""]

/-- The row written when `get_repository_analysis` reported an error
(lines 153–161): grade column `"N/A"`, five `"Error"` cells, and the
error text in the last column. -/
def csrErrorRow (standard : CodingStandard) (repoName err : String) : List Cell :=
  [.str standard.name, .bool standard.isDefault,
   .nat standard.enabledToolsCount, .nat standard.enabledPatternsCount,
   .str repoName, .str "N/A",
   .str "Error", .str "Error", .str "Error", .str "Error", .str "Error",
   .str err]

/-- The row written on success (lines 163–176); the `metrics.get(_, d)`
defaults are modelled on the optional metrics value. -/
def csrDataRow (standard : CodingStandard) (repoName : String)
    (mo : Option Metrics) : List Cell :=
  [.str standard.name, .bool standard.isDefault,
   .nat standard.enabledToolsCount, .nat standard.enabledPatternsCount,
   .str repoName,
   .str ((mo.map Metrics.grade).getD "N/A"),
   .nat ((mo.map (fun m => m.issues.total)).getD 0),
   .nat ((mo.map Metrics.loc).getD 0),
   .rat ((mo.map Metrics.coverage).getD 0),
   .nat ((mo.map Metrics.complexity).getD 0),
   .rat ((mo.map Metrics.duplication).getD 0),
   .str ""]

/-- Rows contributed by one repository of one standard (the body of the
inner loop, lines 145–176): skip when `repo.get("name", "")` is falsy,
else one error row or one data row. -/
def csrRepoRows (env : CSREnv) (standard : CodingStandard) (repo : Repo) :
    List (List Cell) :=
  let repoName := repo.name.getD ""
  if repoName = "" then []
  else
    match get_repository_analysis (env.analysisFor repoName) with
    | (_, some err) => [csrErrorRow standard repoName err]
    | (mo, none) => [csrDataRow standard repoName mo]

/-- Rows contributed by one standard given its fetched repository list
(lines 133–176): the placeholder row when the list is empty, else the
concatenation of the per-repository rows. -/
def csrStandardRows (env : CSREnv) (standard : CodingStandard)
    (repositories : List Repo) : List (List Cell) :=
  if repositories = [] then [csrNoReposRow standard]
  else (repositories.map (csrRepoRows env standard)).flatten

/-- `generate_report` (coding_standards_report.py): iterate the
non-draft standards and concatenate their rows. -/
def generate_report (env : CSREnv) : List (List Cell) :=
  ((get_coding_standards env.standardsData).map
    (fun standard => csrStandardRows env standard (env.reposFor standard.id))).flatten

/-- Environment of `generate_quick_report` (detailed_issues_report.py).
`searchFor` is the outcome of the single quick-mode request for a
repository name: the parsed response body, or the text of the exception
`search_repository_issues` raised (caught by the per-repository
`try`). -/
structure QuickEnv (α : Type) where
  standardsData : List CodingStandard
  reposFor : String → List Repo
  searchFor : String → Except String (SearchResponse α)

/-- Rows contributed by one repository in the quick report (lines
135–161): skip falsy names; on success one row
`[name, repo, total, counts.get("Error",0), counts.get("Warning",0),
counts.get("Info",0)]`; on exception one row
`[name, repo, "Error", str(e), "", ""]`. -/
def quickRepoRows (env : QuickEnv α) (standard : CodingStandard) (repo : Repo) :
    List (List Cell) :=
  let repoName := repo.name.getD ""
  if repoName = "" then []
  else
    match env.searchFor repoName with
    | .ok resp =>
      let result := quickResultOf resp
      let counts := result.counts
      [[.str standard.name, .str repoName, .nat result.total,
        .nat (countsGet counts "Error"), .nat (countsGet counts "Warning"),
        .nat (countsGet counts "Info")]]
    | .error e =>
      [[.str standard.name, .str repoName, .str "Error", .str e, .str "", .str ""]]

/-- Rows of one standard in the quick report (lines 132–161): a standard
with no repositories is skipped with `continue` — NO placeholder row. -/
def quickStandardRows (env : QuickEnv α) (standard : CodingStandard)
    (repositories : List Repo) : List (List Cell) :=
  if repositories = [] then []
  else (repositories.map (quickRepoRows env standard)).flatten

def generate_quick_report (env : QuickEnv α) : List (List Cell) :=
  ((get_coding_standards env.standardsData).map
    (fun standard => quickStandardRows env standard (env.reposFor standard.id))).flatten

/-! ## Detailed report (detailed_issues_report.py) -/

/-- `issue.get("patternInfo", {})` with its keys, `none` when absent. -/
structure PatternInfo where
  id : Option String
  category : Option String
  severityLevel : Option String
deriving DecidableEq

/-- One element of the issues list, with the keys `generate_detailed_report`
reads; `none` models an absent key (default `""` at the read site). -/
structure Issue where
  filePath : Option String
  lineNumber : Option Nat
  id : Option String
  patternInfo : Option PatternInfo
  message : Option String
  authorName : Option String
  createdAt : Option String
deriving DecidableEq

/-- `issue.get("lineNumber", "")`: a number when present, else the empty
string. -/
def cellOfOptNat : Option Nat → Cell
  | some n => .nat n
  | none => .str ""

/-- One issue row (lines 209–221). -/
def issueRow (standardName repoName : String) (issue : Issue) : List Cell :=
  [.str standardName, .str repoName,
   .str (issue.filePath.getD ""),
   cellOfOptNat issue.lineNumber,
   .str (issue.id.getD ""),
   .str ((issue.patternInfo.bind PatternInfo.id).getD ""),
   .str ((issue.patternInfo.bind PatternInfo.category).getD ""),
   .str ((issue.patternInfo.bind PatternInfo.severityLevel).getD ""),
   .str (issue.message.getD ""),
   .str (issue.authorName.getD ""),
   .str (issue.createdAt.getD "")]

/-- The error row of the detailed report (lines 224–236): `"Error"` in
the File column and `str(e)` in the Message column. -/
def detailedErrorRow (standardName repoName e : String) : List Cell :=
  [.str standardName, .str repoName, .str "Error", .str "", .str "",
   .str "", .str "", .str "", .str e, .str "", .str ""]

/-- Environment of `generate_detailed_report` and `main`.  The standards
fetch and the per-standard repositories fetch are NOT wrapped in a `try`
inside the generator, so their failures are modelled with `Except` and
propagate; the per-repository issues fetch is wrapped, so its failure is
the `Except.error` consumed by the row builder. -/
structure DetailedEnv where
  standardsResp : Except String (List CodingStandard)
  reposFor : String → Except String (List Repo)
  issuesFor : String → Except String (List Issue)

/-- Rows of one repository in the detailed report (lines 200–236): skip
falsy names; one row per issue on success (a repository with no issues
contributes no row); one error row when the issues fetch raised. -/
def detailedRepoRows (env : DetailedEnv) (standard : CodingStandard) (repo : Repo) :
    List (List Cell) :=
  let repoName := repo.name.getD ""
  if repoName = "" then []
  else
    match env.issuesFor repoName with
    | .ok issues => issues.map (issueRow standard.name repoName)
    | .error e => [detailedErrorRow standard.name repoName e]

/-- Rows of one standard (lines 197–236): `continue` on an empty
repository list (no placeholder row). -/
def detailedStandardRows (env : DetailedEnv) (standard : CodingStandard)
    (repositories : List Repo) : List (List Cell) :=
  if repositories = [] then []
  else (repositories.map (detailedRepoRows env standard)).flatten

/-- The outer `for standard in standards` loop of
`generate_detailed_report`: an exception from a per-standard
repositories fetch propagates (aborting the loop — rows already written
for earlier standards stay in the file, but here only the abort and its
error matter), per-repository failures are already absorbed by
`detailedRepoRows`. -/
def detailedReportRows (env : DetailedEnv) :
    List CodingStandard → Except String (List (List Cell))
  | [] => .ok []
  | standard :: rest =>
    (env.reposFor standard.id).bind (fun repositories =>
      (detailedReportRows env rest).map (fun restRows =>
        detailedStandardRows env standard repositories ++ restRows))

/-- `generate_detailed_report`: an exception from the standards fetch or
from a per-standard repositories fetch propagates out of the generator;
per-repository failures are absorbed into error rows. -/
def generate_detailed_report (env : DetailedEnv) : Except String (List (List Cell)) :=
  env.standardsResp.bind (fun standardsData =>
    detailedReportRows env (get_coding_standards standardsData))

/-- `main` of detailed_issues_report.py: any exception escaping report
generation is caught at top level and turns into `exit(1)`; otherwise
the process exits normally (code 0). -/
def mainExitCode (env : DetailedEnv) : Nat :=
  match generate_detailed_report env with
  | .ok _ => 0
  | .error _ => 1

/-! ## Well-linked page sequences for the pagination loop -/

/-- `pageChain server c pages`: starting from loop state `c`, the server
answers the request the loop would send with the successive elements of
`pages`, every page but the last carries a truthy cursor, and the last
page carries a falsy one.  This is the premise of the paginator claim
("N pages, each with a non-empty cursor except the last"). -/
def pageChain (server : IssuesRequest → SearchResponse α) :
    Option String → List (SearchResponse α) → Prop
  | _, [] => False
  | c, [p] =>
      server { limit := 100, cursor := if cursorTruthy c then c else none } = p
      ∧ cursorTruthy p.pagination.cursor = false
  | c, p :: q :: rest =>
      server { limit := 100, cursor := if cursorTruthy c then c else none } = p
      ∧ cursorTruthy p.pagination.cursor = true
      ∧ pageChain server p.pagination.cursor (q :: rest)

/-- The requests the loop sends while walking `pages` from state `c`. -/
def chainReqs : Option String → List (SearchResponse α) → List IssuesRequest
  | _, [] => []
  | c, p :: rest =>
      { limit := 100, cursor := if cursorTruthy c then c else none }
        :: chainReqs p.pagination.cursor rest

/-! ## Concrete instances used by witnesses and counterexamples -/

/-- Two transient failures then success. -/
def c1AttemptsOk : Nat → AttemptResult Nat := fun i =>
  match i with
  | 0 => .failure "boom0"
  | 1 => .failure "boom1"
  | _ => .success 7

/-- Three consecutive transient failures. -/
def c1AttemptsFail : Nat → AttemptResult Nat := fun i =>
  match i with
  | 0 => .failure "boom0"
  | 1 => .failure "boom1"
  | _ => .failure "boom2"

/-- Every attempt rate limited, no Retry-After header. -/
def c1Attempts429 : Nat → AttemptResult Nat := fun _ => .rateLimited none

/-- Every attempt rate limited with `Retry-After: 5`. -/
def c2Attempts : Nat → AttemptResult Nat := fun _ => .rateLimited (some 5)

def c3Page1 : SearchResponse Nat :=
  { data := [10, 11], counts := []
  , pagination := { total := 3, cursor := some "cur1", counts := [] } }

def c3Page2 : SearchResponse Nat :=
  { data := [12], counts := []
  , pagination := { total := 3, cursor := none, counts := [] } }

def c3Server : IssuesRequest → SearchResponse Nat := fun req =>
  if req.cursor = some "cur1" then c3Page2 else c3Page1

def c4Std : CodingStandard :=
  { id := "id4", name := "std4", isDraft := false, isDefault := true
  , enabledToolsCount := 1, enabledPatternsCount := 2 }

def c6Std : CodingStandard :=
  { id := "std-1", name := "default", isDraft := false, isDefault := true
  , enabledToolsCount := 0, enabledPatternsCount := 0 }

/-- Response for a repository with zero issues. -/
def c6EmptyResp : SearchResponse Nat :=
  { data := [], counts := [], pagination := { total := 0, cursor := none, counts := [] } }

/-- One non-draft standard "default" bound to one repository "repo-a"
with zero issues. -/
def c6Env : QuickEnv Nat :=
  { standardsData := [c6Std]
  , reposFor := fun _ => [{ name := some "repo-a" }]
  , searchFor := fun _ => .ok c6EmptyResp }

/-- A response whose top-level `counts` differs from the `counts` key of
its `pagination` object. -/
def c6MismatchResp : SearchResponse Nat :=
  { data := [], counts := [("Error", 1)]
  , pagination := { total := 1, cursor := none, counts := [("Error", 2)] } }

def c6MismatchServer : IssuesRequest → SearchResponse Nat := fun _ => c6MismatchResp

def c7Std : CodingStandard :=
  { id := "s7", name := "standard-7", isDraft := false, isDefault := false
  , enabledToolsCount := 3, enabledPatternsCount := 4 }

def c7Data : AnalysisData :=
  { gradeLetter := some "A", grade := 92, issuesCount := 4
  , coverage := { numberTotalFiles := 0, filesUncovered := 0, filesWithLowCoverage := 0 }
  , complexFilesCount := 1, duplicationPercentage := 0, loc := 1000 }

/-- One standard with repositories "repo-b" (whose analysis fetch
reports a 404) and "repo-c" (analyzed fine). -/
def c7Env : CSREnv :=
  { standardsData := [c7Std]
  , reposFor := fun _ => [{ name := some "repo-b" }, { name := some "repo-c" }]
  , analysisFor := fun r =>
      if r = "repo-b" then .err "404 Client Error: Not Found for url" else .ok c7Data }

def c8Std1 : CodingStandard :=
  { id := "s1", name := "st-one", isDraft := false, isDefault := false
  , enabledToolsCount := 0, enabledPatternsCount := 0 }

def c8Std2 : CodingStandard :=
  { id := "s2", name := "st-two", isDraft := false, isDefault := false
  , enabledToolsCount := 0, enabledPatternsCount := 0 }

def c8Issue : Issue :=
  { filePath := some "a.py", lineNumber := some 3, id := some "I1"
  , patternInfo := none, message := some "bad", authorName := none, createdAt := none }

/-- Two standards; the issues fetch fails for repository "rb" of the
first standard but the run continues through "rc" of the second. -/
def c8Env : DetailedEnv :=
  { standardsResp := .ok [c8Std1, c8Std2]
  , reposFor := fun s =>
      if s = "s1" then .ok [{ name := some "ra" }, { name := some "rb" }]
      else .ok [{ name := some "rc" }]
  , issuesFor := fun r =>
      if r = "ra" then .ok [c8Issue]
      else if r = "rb" then .error "boom"
      else .ok [c8Issue] }

/-- The standards fetch itself fails. -/
def c8EnvFatalStandards : DetailedEnv :=
  { standardsResp := .error "network down"
  , reposFor := fun _ => .ok [], issuesFor := fun _ => .ok [] }

/-- The repositories fetch of the (only) standard fails. -/
def c8EnvFatalRepos : DetailedEnv :=
  { standardsResp := .ok [c8Std1]
  , reposFor := fun _ => .error "repos down", issuesFor := fun _ => .ok [] }

/-- A non-draft standard with nonzero tool/pattern counts and zero bound
repositories. -/
def c9Std : CodingStandard :=
  { id := "s9", name := "std-nine", isDraft := false, isDefault := false
  , enabledToolsCount := 5, enabledPatternsCount := 7 }

def c9QuickEnv : QuickEnv Nat :=
  { standardsData := [c9Std], reposFor := fun _ => [], searchFor := fun _ => .error "unused" }

def c9CsrEnv : CSREnv :=
  { standardsData := [c9Std], reposFor := fun _ => [], analysisFor := fun _ => .err "unused" }

def c10Std : CodingStandard :=
  { id := "s10", name := "std-ten", isDraft := false, isDefault := false
  , enabledToolsCount := 0, enabledPatternsCount := 0 }

def c10CsrEnv : CSREnv :=
  { standardsData := [c10Std], reposFor := fun _ => [{ name := none }]
  , analysisFor := fun _ => .err "e" }

def c10QuickEnv : QuickEnv Nat :=
  { standardsData := [c10Std], reposFor := fun _ => [{ name := none }]
  , searchFor := fun _ => .error "e" }

def c10DetEnv : DetailedEnv :=
  { standardsResp := .ok [c10Std], reposFor := fun _ => .ok [{ name := none }]
  , issuesFor := fun _ => .error "e" }

/-! ## Helper lemmas -/

/-- One loop iteration that hits a 429: sleep `Retry-After` (default
60), consume one attempt, continue. -/
theorem makeRequestLoop_rateLimited (attempts : Nat → AttemptResult α)
    (maxRetries fuel retries : Nat) (ra : Option Nat)
    (h : attempts retries = .rateLimited ra) :
    makeRequestLoop attempts maxRetries (fuel + 1) retries =
      { sleeps := ra.getD 60 ::
          (makeRequestLoop attempts maxRetries fuel (retries + 1)).sleeps,
        result := (makeRequestLoop attempts maxRetries fuel (retries + 1)).result } := by
  simp [makeRequestLoop, h]

/-- One loop iteration that hits a transient failure with retries left:
sleep `2^(retries+1)`, consume one attempt, continue. -/
theorem makeRequestLoop_failure_step (attempts : Nat → AttemptResult α)
    (maxRetries fuel retries : Nat) (msg : String)
    (h : attempts retries = .failure msg) (hne : ¬ retries + 1 = maxRetries) :
    makeRequestLoop attempts maxRetries (fuel + 1) retries =
      { sleeps := 2 ^ (retries + 1) ::
          (makeRequestLoop attempts maxRetries fuel (retries + 1)).sleeps,
        result := (makeRequestLoop attempts maxRetries fuel (retries + 1)).result } := by
  simp [makeRequestLoop, h, hne]

/-- The final transient failure: raise the detailed exception. -/
theorem makeRequestLoop_failure_last (attempts : Nat → AttemptResult α)
    (maxRetries fuel retries : Nat) (msg : String)
    (h : attempts retries = .failure msg) (heq : retries + 1 = maxRetries) :
    makeRequestLoop attempts maxRetries (fuel + 1) retries =
      { sleeps := [], result := .error (.apiRequestFailed msg maxRetries) } := by
  simp [makeRequestLoop, h, heq]

/-- A successful attempt returns the parsed body at once. -/
theorem makeRequestLoop_success (attempts : Nat → AttemptResult α)
    (maxRetries fuel retries : Nat) (b : α)
    (h : attempts retries = .success b) :
    makeRequestLoop attempts maxRetries (fuel + 1) retries =
      { sleeps := [], result := .ok b } := by
  simp [makeRequestLoop, h]

/-! ## Claim C1 -/

/-- C1 (amended): with `max_retries = 3`, two transient failures then a
success return the parsed body after sleeping exactly 2 then 4 seconds;
three transient failures raise the exception carrying the last error and
the retry count (still after the sleeps 2 and 4); but exhaustion by
repeated HTTP 429 responses instead reaches the generic
`"Maximum retries exceeded"` exception, which carries neither. -/
theorem retry_two_failures_then_success_and_exhaustion :
    (∀ (α : Type) (attempts : Nat → AttemptResult α) (m0 m1 : String) (b : α),
        attempts 0 = .failure m0 → attempts 1 = .failure m1 →
        attempts 2 = .success b →
        makeRequest attempts 3 = { sleeps := [2, 4], result := Except.ok b })
  ∧ (∀ (α : Type) (attempts : Nat → AttemptResult α) (m0 m1 m2 : String),
        attempts 0 = .failure m0 → attempts 1 = .failure m1 →
        attempts 2 = .failure m2 →
        makeRequest attempts 3 =
          { sleeps := [2, 4], result := Except.error (.apiRequestFailed m2 3) })
  ∧ (∀ (α : Type) (attempts : Nat → AttemptResult α),
        (∀ i, i < 3 → attempts i = .rateLimited none) →
        makeRequest attempts 3 =
          { sleeps := [60, 60, 60], result := Except.error .maxRetriesExceeded }) := by
  refine ⟨?_, ?_, ?_⟩
  · intro α attempts m0 m1 b h0 h1 h2
    have s0 := makeRequestLoop_failure_step attempts 3 2 0 m0 h0 (by decide)
    have s1 := makeRequestLoop_failure_step attempts 3 1 1 m1 h1 (by decide)
    have s2 := makeRequestLoop_success attempts 3 0 2 b h2
    simp only [makeRequest]
    rw [show (3 : Nat) = 2 + 1 from rfl, s0,
        show (2 : Nat) = 1 + 1 from rfl, s1,
        show (1 : Nat) = 0 + 1 from rfl, s2]
    norm_num
  · intro α attempts m0 m1 m2 h0 h1 h2
    have s0 := makeRequestLoop_failure_step attempts 3 2 0 m0 h0 (by decide)
    have s1 := makeRequestLoop_failure_step attempts 3 1 1 m1 h1 (by decide)
    have s2 := makeRequestLoop_failure_last attempts 3 0 2 m2 h2 (by decide)
    simp only [makeRequest]
    rw [show (3 : Nat) = 2 + 1 from rfl, s0,
        show (2 : Nat) = 1 + 1 from rfl, s1,
        show (1 : Nat) = 0 + 1 from rfl, s2]
    norm_num
  · intro α attempts h
    have s0 := makeRequestLoop_rateLimited attempts 3 2 0 none (h 0 (by decide))
    have s1 := makeRequestLoop_rateLimited attempts 3 1 1 none (h 1 (by decide))
    have s2 := makeRequestLoop_rateLimited attempts 3 0 2 none (h 2 (by decide))
    simp only [makeRequest]
    rw [show (3 : Nat) = 2 + 1 from rfl, s0,
        show (2 : Nat) = 1 + 1 from rfl, s1,
        show (1 : Nat) = 0 + 1 from rfl, s2]
    rfl

/-- C1 counterexample: three straight 429 responses exhaust the retries,
and what is raised is the bare `"Maximum retries exceeded"` exception —
it carries neither the last underlying error nor the retry count, so the
claimed error content does NOT hold on the 429 exhaustion path. -/
theorem retry_429_exhaustion_loses_error_details :
    (makeRequest c1Attempts429 3).result = Except.error ReqError.maxRetriesExceeded
  ∧ (makeRequest c1Attempts429 3).sleeps = [60, 60, 60]
  ∧ ReqError.carriesRetryDetails ReqError.maxRetriesExceeded = false
  ∧ ReqError.message ReqError.maxRetriesExceeded = "Maximum retries exceeded" :=
  ⟨rfl, rfl, rfl, rfl⟩

/-- C1 witness: the amended claim evaluated on concrete attempt
sequences. -/
theorem retry_two_failures_then_success_witness :
    makeRequest c1AttemptsOk 3 = { sleeps := [2, 4], result := Except.ok 7 }
  ∧ makeRequest c1AttemptsFail 3 =
      { sleeps := [2, 4], result := Except.error (.apiRequestFailed "boom2" 3) }
  ∧ makeRequest c1Attempts429 3 =
      { sleeps := [60, 60, 60], result := Except.error .maxRetriesExceeded } :=
  ⟨retry_two_failures_then_success_and_exhaustion.1 Nat c1AttemptsOk "boom0" "boom1" 7
      rfl rfl rfl,
   retry_two_failures_then_success_and_exhaustion.2.1 Nat c1AttemptsFail
      "boom0" "boom1" "boom2" rfl rfl rfl,
   retry_two_failures_then_success_and_exhaustion.2.2 Nat c1Attempts429
      (fun _ _ => rfl)⟩

/-! ## Claim C2 -/

/-- C2: an iteration of the request loop that sees an HTTP 429 sleeps
exactly the `Retry-After` value (60 when the header is absent, via
`Option.getD`), consumes exactly one retry attempt and continues with
the same request procedure at `retries + 1`; the slept duration is
`ra.getD 60`, never the exponential `2^(retries+1)` of the failure
branch.  The second conjunct restates this at the `_make_request` entry
point: the first sleep after an initial 429 is the Retry-After value. -/
theorem rate_limit_sleeps_retry_after_not_backoff :
    (∀ (α : Type) (attempts : Nat → AttemptResult α)
        (maxRetries fuel retries : Nat) (ra : Option Nat),
        attempts retries = .rateLimited ra →
        makeRequestLoop attempts maxRetries (fuel + 1) retries =
          { sleeps := ra.getD 60 ::
              (makeRequestLoop attempts maxRetries fuel (retries + 1)).sleeps,
            result := (makeRequestLoop attempts maxRetries fuel (retries + 1)).result })
  ∧ (∀ (α : Type) (attempts : Nat → AttemptResult α)
        (maxRetries : Nat) (ra : Option Nat),
        0 < maxRetries → attempts 0 = .rateLimited ra →
        (makeRequest attempts maxRetries).sleeps.head? = some (ra.getD 60)) := by
  constructor
  · intro α attempts maxRetries fuel retries ra h
    exact makeRequestLoop_rateLimited attempts maxRetries fuel retries ra h
  · intro α attempts maxRetries ra hpos h
    cases maxRetries with
    | zero => exact absurd hpos (by simp)
    | succ m =>
      have s0 := makeRequestLoop_rateLimited attempts (m + 1) m 0 ra h
      simp [makeRequest, s0]

/-- C2 witness: a concrete 429 with `Retry-After: 5` at `retries = 0`
sleeps 5 seconds and continues at `retries = 1`. -/
theorem rate_limit_sleeps_retry_after_witness :
    makeRequestLoop c2Attempts 3 3 0 =
      { sleeps := 5 :: (makeRequestLoop c2Attempts 3 2 1).sleeps,
        result := (makeRequestLoop c2Attempts 3 2 1).result } :=
  rate_limit_sleeps_retry_after_not_backoff.1 Nat c2Attempts 3 2 0 (some 5) rfl

/-! ## Claim C3 -/

/-- The pagination loop, run against a well-linked page sequence with
enough fuel, issues exactly the chain's requests, accumulates the pages'
items in order, and terminates by the falsy-cursor break. -/
theorem searchIssuesLoop_chain (server : IssuesRequest → SearchResponse α) :
    ∀ (pages : List (SearchResponse α)) (c : Option String) (fuel : Nat),
      pageChain server c pages → pages.length ≤ fuel →
      searchIssuesLoop server fuel c =
        (chainReqs c pages, (pages.map SearchResponse.data).flatten, true) := by
  intro pages
  induction pages with
  | nil => intro c fuel h _; exact absurd h (by simp [pageChain])
  | cons p rest ih =>
    intro c fuel hchain hfuel
    cases fuel with
    | zero => simp at hfuel
    | succ f =>
      cases rest with
      | nil =>
        simp only [pageChain] at hchain
        obtain ⟨hserv, hcur⟩ := hchain
        simp [searchIssuesLoop, chainReqs, hserv, hcur]
      | cons q rest2 =>
        simp only [pageChain] at hchain
        obtain ⟨hserv, hcur, htail⟩ := hchain
        have hlen : (q :: rest2).length ≤ f := by
          simp only [List.length_cons] at hfuel ⊢; omega
        have hrec := ih p.pagination.cursor f htail hlen
        simp [searchIssuesLoop, chainReqs, hserv, hcur, hrec]

/-- The loop issues one request per page. -/
theorem chainReqs_length :
    ∀ (pages : List (SearchResponse α)) (c : Option String),
      (chainReqs c pages).length = pages.length := by
  intro pages
  induction pages with
  | nil => intro c; rfl
  | cons p rest ih => intro c; simp [chainReqs, ih]

/-- Every request of the chain asks for a page size of 100. -/
theorem chainReqs_limit :
    ∀ (pages : List (SearchResponse α)) (c : Option String),
      ∀ r ∈ chainReqs c pages, r.limit = 100 := by
  intro pages
  induction pages with
  | nil => intro c r hr; simp [chainReqs] at hr
  | cons p rest ih =>
    intro c r hr
    simp only [chainReqs, List.mem_cons] at hr
    rcases hr with h | h
    · rw [h]
    · exact ih p.pagination.cursor r h

/-- Along a well-linked chain, the requests are: the start request, then
one request per non-final page carrying that page's cursor. -/
theorem chainReqs_eq_dropLast (server : IssuesRequest → SearchResponse α) :
    ∀ (pages : List (SearchResponse α)) (c : Option String),
      pageChain server c pages →
      chainReqs c pages =
        { limit := 100, cursor := if cursorTruthy c then c else none }
          :: pages.dropLast.map
              (fun p => { limit := 100, cursor := p.pagination.cursor }) := by
  intro pages
  induction pages with
  | nil => intro c h; exact absurd h (by simp [pageChain])
  | cons p rest ih =>
    intro c hchain
    cases rest with
    | nil => simp [chainReqs, List.dropLast]
    | cons q rest2 =>
      simp only [pageChain] at hchain
      obtain ⟨hserv, hcur, htail⟩ := hchain
      have hrec := ih p.pagination.cursor htail
      have hstep : chainReqs c (p :: q :: rest2)
          = { limit := 100, cursor := if cursorTruthy c then c else none }
            :: chainReqs p.pagination.cursor (q :: rest2) := rfl
      have hdl : (p :: q :: rest2).dropLast = p :: (q :: rest2).dropLast := rfl
      rw [hstep, hrec, hcur, hdl, List.map_cons]
      simp

/-- C3: for every sequence of `N` pages in which each page but the last
carries a truthy cursor and the server links them (`pageChain`), the
detailed-mode pagination loop (given at least `N` steps of fuel) issues
its first request with no cursor and each later request with the cursor
of the most recent response, asks for `limit = 100` on every request,
makes exactly `N` requests, and returns the concatenation of the pages'
item lists in page order, whose length is the sum of the page item
counts. -/
theorem paginator_walks_cursor_chain (α : Type) (server : IssuesRequest → SearchResponse α)
    (pages : List (SearchResponse α)) (fuel : Nat)
    (hchain : pageChain server none pages) (hfuel : pages.length ≤ fuel) :
    search_repository_issues_detailed server fuel =
      ({ limit := 100, cursor := none }
         :: pages.dropLast.map (fun p => { limit := 100, cursor := p.pagination.cursor }),
       (pages.map SearchResponse.data).flatten, true)
    ∧ (search_repository_issues_detailed server fuel).1.length = pages.length
    ∧ (∀ r ∈ (search_repository_issues_detailed server fuel).1, r.limit = 100)
    ∧ (search_repository_issues_detailed server fuel).2.1.length
        = (pages.map (fun p => p.data.length)).sum := by
  have hmain := searchIssuesLoop_chain server pages none fuel hchain hfuel
  have hreqs := chainReqs_eq_dropLast server pages none hchain
  refine ⟨?_, ?_, ?_, ?_⟩
  · simp only [search_repository_issues_detailed, hmain, hreqs]
    simp [cursorTruthy]
  · simp only [search_repository_issues_detailed, hmain]
    simp [chainReqs_length]
  · simp only [search_repository_issues_detailed, hmain]
    intro r hr
    exact chainReqs_limit pages none r hr
  · simp only [search_repository_issues_detailed, hmain]
    simp [List.map_map, Function.comp_def]

/-- C3 witness: a two-page chain yields two requests (the second carrying
the first page's cursor) and the three items in order. -/
theorem paginator_walks_cursor_chain_witness :
    search_repository_issues_detailed c3Server 2 =
      ([{ limit := 100, cursor := none }, { limit := 100, cursor := some "cur1" }],
       [10, 11, 12], true) :=
  (paginator_walks_cursor_chain Nat c3Server [c3Page1, c3Page2] 2
    ⟨rfl, rfl, rfl, rfl⟩ (by decide)).1

/-! ## Claim C4 -/

/-- Filtering drafts is idempotent. -/
theorem get_coding_standards_filter (l : List CodingStandard) :
    get_coding_standards (l.filter (fun s => !s.isDraft)) = get_coding_standards l := by
  simp [get_coding_standards, List.filter_filter]

/-- The detailed-report loop only reads `reposFor` and `issuesFor` from
the environment, so replacing the standards response leaves it alone. -/
theorem detailedReportRows_env_congr (env : DetailedEnv)
    (resp : Except String (List CodingStandard)) :
    ∀ L, detailedReportRows { env with standardsResp := resp } L
      = detailedReportRows env L := by
  intro L
  induction L with
  | nil => rfl
  | cons s rest ih =>
    simp only [detailedReportRows, ih]
    rfl

/-- C4: every standard returned by `get_coding_standards` has its draft
flag unset, and consequently removing the draft standards from the
response changes none of the three reports' outputs (draft standards
contribute no row anywhere). -/
theorem drafts_never_reach_any_output :
    (∀ (standardsData : List CodingStandard) (s : CodingStandard),
        s ∈ get_coding_standards standardsData → s.isDraft = false)
  ∧ (∀ env : CSREnv,
        generate_report
          { env with standardsData := env.standardsData.filter (fun s => !s.isDraft) }
          = generate_report env)
  ∧ (∀ (α : Type) (env : QuickEnv α),
        generate_quick_report
          { env with standardsData := env.standardsData.filter (fun s => !s.isDraft) }
          = generate_quick_report env)
  ∧ (∀ env : DetailedEnv,
        generate_detailed_report
          { env with standardsResp :=
              env.standardsResp.map (fun l => l.filter (fun s => !s.isDraft)) }
          = generate_detailed_report env) := by
  refine ⟨?_, ?_, ?_, ?_⟩
  · intro standardsData s h
    simp only [get_coding_standards, List.mem_filter] at h
    simpa using h.2
  · intro env
    simp only [generate_report, get_coding_standards_filter]
    rfl
  · intro α env
    simp only [generate_quick_report, get_coding_standards_filter]
    rfl
  · intro env
    cases h : env.standardsResp with
    | error e => simp [generate_detailed_report, h, Except.map, Except.bind]
    | ok l =>
      simp only [generate_detailed_report, h, Except.map, Except.bind,
        get_coding_standards_filter]
      exact detailedReportRows_env_congr env
        (Except.ok (l.filter (fun s => !s.isDraft))) (get_coding_standards l)

/-- C4 witness: a concrete non-draft standard surviving the filter. -/
theorem drafts_never_reach_any_output_witness : c4Std.isDraft = false :=
  drafts_never_reach_any_output.1 [c4Std] c4Std (by decide)

/-! ## Claim C5 -/

/-- C5: the coverage percentage computed by `get_repository_analysis`
follows `(totalFiles - uncoveredFiles - lowCoverageFiles) / totalFiles *
100` when `totalFiles ≠ 0` and is exactly 0 when `totalFiles = 0`; the
metrics carry it (rounded to two decimals), and for
`totalFiles = 10, uncovered = 2, lowCoverage = 3` the reported value is
exactly 50. -/
theorem coverage_percentage_formula :
    (∀ cov : CoverageData, ¬ cov.numberTotalFiles = 0 →
        coverage_percentage cov =
          (((cov.numberTotalFiles : ℚ) - (cov.filesUncovered : ℚ)
             - (cov.filesWithLowCoverage : ℚ)) / (cov.numberTotalFiles : ℚ)) * 100)
  ∧ (∀ cov : CoverageData, cov.numberTotalFiles = 0 → coverage_percentage cov = 0)
  ∧ (∀ data : AnalysisData,
        get_repository_analysis (.ok data) = (some (metricsOf data), none)
        ∧ (metricsOf data).coverage = roundTo2 (coverage_percentage data.coverage))
  ∧ coverage_percentage
      { numberTotalFiles := 10, filesUncovered := 2, filesWithLowCoverage := 3 } = 50
  ∧ (metricsOf
      { gradeLetter := none, grade := 0, issuesCount := 0
      , coverage := { numberTotalFiles := 10, filesUncovered := 2, filesWithLowCoverage := 3 }
      , complexFilesCount := 0, duplicationPercentage := 0, loc := 0 }).coverage = 50 := by
  refine ⟨?_, ?_, fun data => ⟨rfl, rfl⟩, ?_, ?_⟩
  · intro cov h
    simp [coverage_percentage, h]
  · intro cov h
    simp [coverage_percentage, h]
  · norm_num [coverage_percentage]
  · norm_num [metricsOf, roundTo2, coverage_percentage]

/-- C5 witness: the nonzero-totalFiles branch evaluated at the concrete
coverage data of the spec scenario. -/
theorem coverage_percentage_formula_witness :
    coverage_percentage
        { numberTotalFiles := 10, filesUncovered := 2, filesWithLowCoverage := 3 }
      = ((((10 : Nat) : ℚ) - ((2 : Nat) : ℚ) - ((3 : Nat) : ℚ)) / ((10 : Nat) : ℚ)) * 100 :=
  coverage_percentage_formula.1
    { numberTotalFiles := 10, filesUncovered := 2, filesWithLowCoverage := 3 } (by decide)

/-! ## Claim C6 -/

/-- C6 counterexample: on a response whose `pagination` object carries a
`counts` key different from the top-level `counts`, quick mode returns
the top-level mapping — the severity counts are NOT read from the
pagination metadata (only `total` is). -/
theorem quick_counts_not_from_pagination :
    (search_repository_issues_quick c6MismatchServer).2.counts = [("Error", 1)]
  ∧ c6MismatchResp.pagination.counts = [("Error", 2)]
  ∧ ¬ (search_repository_issues_quick c6MismatchServer).2.counts
        = c6MismatchResp.pagination.counts :=
  ⟨rfl, rfl, by decide⟩

/-- C6 (amended): quick mode performs exactly one request, with
`limit = 1` and no cursor, and returns the `total` of the response's
pagination metadata together with the severity-counts mapping read from
the TOP LEVEL of the response body; for an organization with one
non-draft standard "default" bound to one repository "repo-a" with zero
issues, the quick report has exactly the one row
`["default", "repo-a", 0, 0, 0, 0]`. -/
theorem quick_mode_single_request_and_zero_row :
    (∀ (α : Type) (server : IssuesRequest → SearchResponse α),
        search_repository_issues_quick server =
          ([{ limit := 1, cursor := none }],
           { total := (server { limit := 1, cursor := none }).pagination.total,
             counts := (server { limit := 1, cursor := none }).counts }))
  ∧ generate_quick_report c6Env =
      [[Cell.str "default", Cell.str "repo-a", Cell.nat 0,
        Cell.nat 0, Cell.nat 0, Cell.nat 0]] :=
  ⟨fun _ _ => rfl, rfl⟩

/-! ## Claim C7 -/

/-- C7: an analysis fetch whose error text contains "404" yields the
dedicated outcome `(none, "Repository not analyzed")`, distinct from the
generic outcome `(none, str(e))` of any other failure; the error row
written for such a repository has `"N/A"` in the grade column and
exactly `"Repository not analyzed"` in the error column; any failed
repository still contributes exactly one row (never aborting the loop),
and on a concrete environment the repository after the 404 one is still
processed. -/
theorem analysis_404_yields_not_analyzed_row :
    (∀ msg : String, strContains msg "404" = true →
        get_repository_analysis (.err msg) = (none, some "Repository not analyzed"))
  ∧ (∀ msg : String, strContains msg "404" = false →
        get_repository_analysis (.err msg) = (none, some msg))
  ∧ (∀ (standard : CodingStandard) (repoName err : String),
        (csrErrorRow standard repoName err)[5]? = some (Cell.str "N/A")
        ∧ (csrErrorRow standard repoName err).getLast? = some (Cell.str err))
  ∧ (∀ (env : CSREnv) (standard : CodingStandard) (repo : Repo)
        (repoName err : String),
        repo.name = some repoName → ¬ repoName = "" →
        get_repository_analysis (env.analysisFor repoName) = (none, some err) →
        csrRepoRows env standard repo = [csrErrorRow standard repoName err])
  ∧ generate_report c7Env =
      [csrErrorRow c7Std "repo-b" "Repository not analyzed",
       csrDataRow c7Std "repo-c" (some (metricsOf c7Data))] := by
  refine ⟨?_, ?_, fun standard repoName err => ⟨rfl, rfl⟩, ?_, ?_⟩
  · intro msg h
    simp [get_repository_analysis, h]
  · intro msg h
    simp [get_repository_analysis, h]
  · intro env standard repo repoName err h1 h2 h3
    simp [csrRepoRows, h1, h2, h3]
  · rfl

/-- C7 witness: the 404 branch and the error-row shape evaluated on the
concrete environment. -/
theorem analysis_404_yields_not_analyzed_row_witness :
    get_repository_analysis (.err "404 Client Error: Not Found for url")
      = (none, some "Repository not analyzed")
  ∧ csrRepoRows c7Env c7Std { name := some "repo-b" }
      = [csrErrorRow c7Std "repo-b" "Repository not analyzed"] :=
  ⟨analysis_404_yields_not_analyzed_row.1 "404 Client Error: Not Found for url"
      (by decide),
   analysis_404_yields_not_analyzed_row.2.2.2.1 c7Env c7Std
      { name := some "repo-b" } "repo-b" "Repository not analyzed" rfl (by decide)
      (analysis_404_yields_not_analyzed_row.1 "404 Client Error: Not Found for url"
        (by decide))⟩

/-! ## Claim C8 -/

/-- C8: a failure of the standards fetch, or of a standard's
repositories fetch, propagates out of `generate_detailed_report` and
`main` exits with code 1; a failure of one repository's issues fetch is
caught, written as one error row for that repository, and the run
continues — on the concrete environment the repositories and standards
after the failing one still produce their rows and the generator
returns successfully. -/
theorem fatal_vs_recoverable_failures :
    (∀ (env : DetailedEnv) (e : String),
        env.standardsResp = .error e → mainExitCode env = 1)
  ∧ (∀ (env : DetailedEnv) (standardsData : List CodingStandard)
        (standard : CodingStandard) (rest : List CodingStandard) (e : String),
        env.standardsResp = .ok standardsData →
        get_coding_standards standardsData = standard :: rest →
        env.reposFor standard.id = .error e →
        mainExitCode env = 1)
  ∧ (∀ (env : DetailedEnv) (standard : CodingStandard) (repo : Repo)
        (repoName e : String),
        repo.name = some repoName → ¬ repoName = "" →
        env.issuesFor repoName = .error e →
        detailedRepoRows env standard repo = [detailedErrorRow standard.name repoName e])
  ∧ generate_detailed_report c8Env =
      .ok [issueRow "st-one" "ra" c8Issue,
           detailedErrorRow "st-one" "rb" "boom",
           issueRow "st-two" "rc" c8Issue]
  ∧ mainExitCode c8EnvFatalRepos = 1 := by
  refine ⟨?_, ?_, ?_, rfl, rfl⟩
  · intro env e h
    simp [mainExitCode, generate_detailed_report, h, Except.bind]
  · intro env standardsData standard rest e h1 h2 h3
    simp [mainExitCode, generate_detailed_report, h1, h2, detailedReportRows, h3,
      Except.bind]
  · intro env standard repo repoName e h1 h2 h3
    simp [detailedRepoRows, h1, h2, h3]

/-- C8 witness: the fatal paths and the recoverable path at concrete
environments. -/
theorem fatal_vs_recoverable_failures_witness :
    mainExitCode c8EnvFatalStandards = 1
  ∧ detailedRepoRows c8Env c8Std1 { name := some "rb" }
      = [detailedErrorRow "st-one" "rb" "boom"] :=
  ⟨fatal_vs_recoverable_failures.1 c8EnvFatalStandards "network down" rfl,
   fatal_vs_recoverable_failures.2.2.1 c8Env c8Std1 { name := some "rb" }
      "rb" "boom" rfl (by decide) rfl⟩

/-! ## Claim C9 -/

/-- C9 counterexample: `c9Std` is non-draft, has zero bound repositories
and nonzero enabled-tools/patterns counts.  The quick-summary report
(second report variant) emits NO row at all for it, and in the first
variant the placeholder row's Enabled-Tools column — a numeric column —
is 5, not 0.  So neither "holds for the first two report variants" nor
"every numeric column equal to zero" survives. -/
theorem no_repos_placeholder_counterexample :
    get_coding_standards c9QuickEnv.standardsData = [c9Std]
  ∧ c9Std.isDraft = false
  ∧ c9QuickEnv.reposFor c9Std.id = []
  ∧ generate_quick_report c9QuickEnv = []
  ∧ csrStandardRows c9CsrEnv c9Std (c9CsrEnv.reposFor c9Std.id)
      = [csrNoReposRow c9Std]
  ∧ (csrNoReposRow c9Std)[2]? = some (Cell.nat 5)
  ∧ ¬ (csrNoReposRow c9Std)[2]? = some (Cell.nat 0) :=
  ⟨rfl, rfl, rfl, rfl, rfl, rfl, by decide⟩

/-- C9 (amended): in the first report variant
(coding_standards_report.py), a standard with zero bound repositories
emits exactly one placeholder row: the standard's name, the repository
label `"No repositories"`, grade `"N/A"`, and zeros in the five metric
columns (issues, LOC, coverage, complexity, duplication) — the enabled
tools/patterns columns keep the standard's own counts; the quick-summary
variant (and the detailed variant) instead skips such a standard
silently, emitting no row. -/
theorem no_repos_placeholder_first_variant_only :
    (∀ (env : CSREnv) (standard : CodingStandard),
        csrStandardRows env standard [] = [csrNoReposRow standard])
  ∧ (∀ standard : CodingStandard,
        (csrNoReposRow standard)[0]? = some (Cell.str standard.name)
        ∧ (csrNoReposRow standard)[4]? = some (Cell.str "No repositories")
        ∧ (csrNoReposRow standard)[5]? = some (Cell.str "N/A")
        ∧ (csrNoReposRow standard)[6]? = some (Cell.nat 0)
        ∧ (csrNoReposRow standard)[7]? = some (Cell.nat 0)
        ∧ (csrNoReposRow standard)[8]? = some (Cell.nat 0)
        ∧ (csrNoReposRow standard)[9]? = some (Cell.nat 0)
        ∧ (csrNoReposRow standard)[10]? = some (Cell.nat 0))
  ∧ (∀ (α : Type) (env : QuickEnv α) (standard : CodingStandard),
        quickStandardRows env standard [] = [])
  ∧ (∀ (env : DetailedEnv) (standard : CodingStandard),
        detailedStandardRows env standard [] = []) :=
  ⟨fun _ _ => rfl,
   fun _ => ⟨rfl, rfl, rfl, rfl, rfl, rfl, rfl, rfl⟩,
   fun _ _ _ => rfl,
   fun _ _ => rfl⟩

/-! ## Claim C10 -/

/-- C10: in all three report variants, a repository entry whose name is
absent or empty contributes no row of any kind, and removing it from the
repository list leaves the standard's rows unchanged (in the first
variant, provided the remaining list is nonempty — removing the last
entry would instead surface the no-repositories placeholder row). -/
theorem unnamed_repo_silently_skipped (repo : Repo)
    (hname : repo.name.getD "" = "") :
    (∀ (env : CSREnv) (standard : CodingStandard),
        csrRepoRows env standard repo = [])
  ∧ (∀ (α : Type) (env : QuickEnv α) (standard : CodingStandard),
        quickRepoRows env standard repo = [])
  ∧ (∀ (env : DetailedEnv) (standard : CodingStandard),
        detailedRepoRows env standard repo = [])
  ∧ (∀ (env : CSREnv) (standard : CodingStandard) (rs1 rs2 : List Repo),
        ¬ rs1 ++ rs2 = [] →
        csrStandardRows env standard (rs1 ++ repo :: rs2)
          = csrStandardRows env standard (rs1 ++ rs2))
  ∧ (∀ (α : Type) (env : QuickEnv α) (standard : CodingStandard)
        (rs1 rs2 : List Repo),
        quickStandardRows env standard (rs1 ++ repo :: rs2)
          = quickStandardRows env standard (rs1 ++ rs2))
  ∧ (∀ (env : DetailedEnv) (standard : CodingStandard) (rs1 rs2 : List Repo),
        detailedStandardRows env standard (rs1 ++ repo :: rs2)
          = detailedStandardRows env standard (rs1 ++ rs2)) := by
  refine ⟨?_, ?_, ?_, ?_, ?_, ?_⟩
  · intro env standard
    simp [csrRepoRows, hname]
  · intro α env standard
    simp [quickRepoRows, hname]
  · intro env standard
    simp [detailedRepoRows, hname]
  · intro env standard rs1 rs2 hne
    have hrepo : csrRepoRows env standard repo = [] := by simp [csrRepoRows, hname]
    have hne2 : ¬ (rs1 ++ repo :: rs2) = ([] : List Repo) := by simp
    simp [csrStandardRows, hne, hne2, hrepo, List.map_append, List.flatten_append]
  · intro α env standard rs1 rs2
    have hrepo : quickRepoRows env standard repo = [] := by simp [quickRepoRows, hname]
    by_cases h : rs1 ++ rs2 = ([] : List Repo)
    · obtain ⟨h1, h2⟩ := List.append_eq_nil.mp h
      subst h1; subst h2
      simp [quickStandardRows, hrepo]
    · have hne2 : ¬ (rs1 ++ repo :: rs2) = ([] : List Repo) := by simp
      simp [quickStandardRows, h, hne2, hrepo, List.map_append, List.flatten_append]
  · intro env standard rs1 rs2
    have hrepo : detailedRepoRows env standard repo = [] := by
      simp [detailedRepoRows, hname]
    by_cases h : rs1 ++ rs2 = ([] : List Repo)
    · obtain ⟨h1, h2⟩ := List.append_eq_nil.mp h
      subst h1; subst h2
      simp [detailedStandardRows, hrepo]
    · have hne2 : ¬ (rs1 ++ repo :: rs2) = ([] : List Repo) := by simp
      simp [detailedStandardRows, h, hne2, hrepo, List.map_append, List.flatten_append]

/-- C10 witness: a repository with an absent name contributes no row in
any of the three variants. -/
theorem unnamed_repo_silently_skipped_witness :
    csrRepoRows c10CsrEnv c10Std { name := none } = []
  ∧ quickRepoRows c10QuickEnv c10Std { name := none } = []
  ∧ detailedRepoRows c10DetEnv c10Std { name := none } = [] :=
  ⟨(unnamed_repo_silently_skipped { name := none } rfl).1 c10CsrEnv c10Std,
   (unnamed_repo_silently_skipped { name := none } rfl).2.1 Nat c10QuickEnv c10Std,
   (unnamed_repo_silently_skipped { name := none } rfl).2.2.1 c10DetEnv c10Std⟩

end GlReporter
